import Mathlib

/-!
Verification of the realtime connection manager of the CRM-OGH repository
(`src/src/lib/realtimeManager.ts`, the revision carrying the
`isReconnecting` in-flight guard and the visibility debounce).

The manager keeps four Supabase realtime channel subscriptions alive.
It reacts to channel status callbacks, a periodic keepalive probe,
document visibility changes, network online/offline events and auth
state changes; failed channels are reopened with exponential backoff
bounded by `MAX_RECONNECT_ATTEMPTS`, and a single boolean
`isReconnecting` guards (some of) the teardown/reopen cycles.

Embedding:
* `getBackoffDelay` is the pure backoff computation over `ℚ`, with the
  `Math.random()` draw as an explicit parameter `r` with `0 ≤ r < 1`;
* `cleanupSubscriptions` is the channel-release loop, where the possible
  failure of each `supabase.removeChannel` call is given by an oracle;
* `Config`, `Action`, `step`, `run` form a small-step semantics of the
  single-threaded browser event loop: a synchronous handler segment is
  one atomic step, every `await`/`.then` boundary suspends a `Fiber`
  that a later `Action.resume` completes, and a timer armed by
  `scheduleReconnect` becomes a pending one-shot task that fires
  nondeterministically (`Action.fireTimer`);
* `realtimeManager_subscribe` and `dispatchEvent` model the legacy
  `realtimeManager.subscribe` surface and the `window` custom-event
  dispatch used by `useRealtimeSubscription`.
-/

namespace RealtimeManager

/-- `MAX_RECONNECT_ATTEMPTS` (realtimeManager.ts line 259). -/
def MAX_RECONNECT_ATTEMPTS : Nat := 10

/-- `BASE_DELAY` in milliseconds (realtimeManager.ts line 260). -/
def BASE_DELAY : ℚ := 1000

/-- `MAX_DELAY` in milliseconds (realtimeManager.ts line 261). -/
def MAX_DELAY : ℚ := 60000

/-- `VISIBILITY_DEBOUNCE` in milliseconds (realtimeManager.ts line 275). -/
def VISIBILITY_DEBOUNCE : Nat := 1000

/-- `getBackoffDelay(attempt)` (realtimeManager.ts lines 280-284):
`delay = min(BASE_DELAY * 2^attempt, MAX_DELAY)`, then a jitter of
`Math.random() * 0.3 * delay` is added.  The random draw is the
parameter `r`; the runtime guarantees `0 ≤ r < 1`. -/
def getBackoffDelay (attempt : Nat) (r : ℚ) : ℚ :=
  let delay := min (BASE_DELAY * 2 ^ attempt) MAX_DELAY
  let jitter := r * (3 / 10) * delay
  delay + jitter

/-- One `await supabase.removeChannel(channel)` call: the oracle `fail`
decides whether it throws (channels are identified by numeric ids). -/
def removeChannel (fail : Nat → Bool) (c : Nat) : Except String Unit :=
  if fail c then Except.error "removeChannel failed" else Except.ok ()

/-- The `for (const channel of channelRefs)` loop of
`cleanupSubscriptions` (realtimeManager.ts lines 292-298): each removal
is wrapped in try/catch, so a throwing removal is logged and swallowed
and the loop continues with the next channel. -/
def cleanupLoop (fail : Nat → Bool) : List Nat → Except String Unit
  | [] => Except.ok ()
  | c :: rest =>
    match removeChannel fail c with
    | Except.ok _ => cleanupLoop fail rest
    | Except.error _ => cleanupLoop fail rest

/-- `cleanupSubscriptions` (realtimeManager.ts lines 289-301): run the
removal loop over the current `channelRefs`, then assign
`channelRefs = []`; the result is the final `channelRefs` value, or an
error if the function threw. -/
def cleanupSubscriptions (fail : Nat → Bool) (refs : List Nat) :
    Except String (List Nat) :=
  (cleanupLoop fail refs).map (fun _ => [])

/-- The `window` listener table: pairs of (custom event name, callback
id), as populated by `window.addEventListener` in
`useRealtimeSubscription` (`supabase:<table>:change` events). -/
structure WindowState where
  listeners : List (String × Nat)
deriving DecidableEq

/-- `window.dispatchEvent(new CustomEvent(ev, ...))`: the ids of the
callbacks invoked for event name `ev`, in registration order. -/
def dispatchEvent (w : WindowState) (ev : String) : List Nat :=
  (w.listeners.filter (fun p => p.1 == ev)).map (fun p => p.2)

/-- Legacy `realtimeManager.subscribe` (realtimeManager.ts lines
580-583): logs a warning, ignores all three arguments, registers
nothing, and returns the no-op unregister closure.  The result is the
(unchanged) window state paired with the returned unregister
function. -/
def realtimeManager_subscribe (channelName table : String) (cb : Nat)
    (w : WindowState) : WindowState × (WindowState → WindowState) :=
  (w, fun w2 => w2)

/-- A suspended asynchronous handler body: the part of a handler that
runs after its first `await`/`.then` boundary.  Each constructor records
which handler is parked mid-flight. -/
inductive Fiber
  /-- body of the `setTimeout` callback of `scheduleReconnect` past its
  guard check: it holds `isReconnecting` and is inside its
  teardown/reopen section (lines 399-425) -/
  | reconBody
  /-- body of the visibility-foreground handler past its guard check:
  it holds `isReconnecting` and is inside its teardown/reopen section
  (lines 494-506) -/
  | visBody
  /-- body of the `online` listener (lines 537-540): teardown/reopen
  without touching the guard -/
  | onlineBody
  /-- body of the auth SIGNED_IN / TOKEN_REFRESHED branch (lines
  552-555): teardown/reopen without touching the guard -/
  | authInBody
  /-- body of the auth SIGNED_OUT branch (lines 556-563): teardown and
  keepalive cancellation, no reopen -/
  | authOutBody
  /-- the fire-and-forget `cleanupSubscriptions()` started by the
  `beforeunload` listener (line 569) -/
  | unloadCleanup
deriving DecidableEq

/-- The process-wide mutable state of the manager module (lines
258-275) together with the event-loop bookkeeping: `pendingTimers`
counts armed backoff one-shot timers (their handles are discarded by
the code at line 399), `fibers` lists the suspended handler bodies. -/
structure Config where
  reconnectAttempts : Nat
  channelRefs : List Nat
  nextChannel : Nat
  keepAliveOn : Bool
  isInitialized : Bool
  isReconnecting : Bool
  lastVisibilityChange : Nat
  pendingTimers : Nat
  fibers : List Fiber
deriving DecidableEq

/-- Module load state: all counters zero, no channels, no timers. -/
def initialConfig : Config :=
  { reconnectAttempts := 0, channelRefs := [], nextChannel := 0,
    keepAliveOn := false, isInitialized := false, isReconnecting := false,
    lastVisibilityChange := 0, pendingTimers := 0, fibers := [] }

/-- `subscribeToChannels` (lines 306-361): opens the four channels
(leads, services, bookings, assessments) and overwrites `channelRefs`
with the four fresh handles. -/
def subscribeToChannels (c : Config) : Config :=
  { c with
    channelRefs := [c.nextChannel, c.nextChannel + 1,
                    c.nextChannel + 2, c.nextChannel + 3],
    nextChannel := c.nextChannel + 4 }

/-- `scheduleReconnect` (lines 383-397, the synchronous part): return
early if a reconnection is in flight; return early if
`reconnectAttempts >= MAX_RECONNECT_ATTEMPTS`; otherwise increment the
counter and arm a one-shot `setTimeout` (whose handle is discarded). -/
def scheduleReconnect (c : Config) : Config :=
  if c.isReconnecting then c
  else if MAX_RECONNECT_ATTEMPTS ≤ c.reconnectAttempts then c
  else { c with reconnectAttempts := c.reconnectAttempts + 1,
                pendingTimers := c.pendingTimers + 1 }

/-- `handleSubscriptionStatus` (lines 366-378): `SUBSCRIBED` resets the
failure counter; `CLOSED` and `CHANNEL_ERROR` call `scheduleReconnect`;
every other status string only logs. -/
def handleSubscriptionStatus (status : String) (c : Config) : Config :=
  if status == "SUBSCRIBED" then { c with reconnectAttempts := 0 }
  else if status == "CLOSED" || status == "CHANNEL_ERROR" then
    scheduleReconnect c
  else c

/-- `handleVisibilityChange` (lines 468-508): ignore the event if less
than `VISIBILITY_DEBOUNCE` ms have passed since the last non-ignored
one; record the event time; on hidden only log; on visible return early
if a reconnection is in flight, else take the guard, zero the failure
counter and start the teardown/reopen body (suspended as
`Fiber.visBody`).  JS computes `now - lastVisibilityChange` on numbers,
where a negative difference also satisfies `< 1000`; truncated `Nat`
subtraction gives `0 < 1000` there, the same branch. -/
def handleVisibilityChange (hidden : Bool) (now : Nat) (c : Config) :
    Config :=
  if now - c.lastVisibilityChange < VISIBILITY_DEBOUNCE then c
  else
    let c1 := { c with lastVisibilityChange := now }
    if hidden then c1
    else if c1.isReconnecting then c1
    else { c1 with isReconnecting := true, reconnectAttempts := 0,
                   fibers := Fiber.visBody :: c1.fibers }

/-- Outcome of one keepalive probe
(`supabase.from('leads').select('id').limit(1).maybeSingle()`):
it resolves cleanly, resolves with a non-null `error` field, or
throws. -/
inductive ProbeOutcome
  | ok
  | errResult
  | thrown
deriving DecidableEq

/-- Body of the keepalive interval callback (lines 441-461): an error
result calls `scheduleReconnect`; a thrown exception is caught and only
logged (lines 457-460); a clean result only logs. -/
def keepaliveTick (o : ProbeOutcome) (c : Config) : Config :=
  match o with
  | ProbeOutcome.ok => c
  | ProbeOutcome.errResult => scheduleReconnect c
  | ProbeOutcome.thrown => c

/-- The `onAuthStateChange` callback (lines 547-564, synchronous part):
SIGNED_IN / TOKEN_REFRESHED starts an (unguarded) teardown/reopen body;
SIGNED_OUT starts a teardown body that will also stop the keepalive;
other events only log. -/
def onAuthStateChange (event : String) (c : Config) : Config :=
  if event == "SIGNED_IN" || event == "TOKEN_REFRESHED" then
    { c with fibers := Fiber.authInBody :: c.fibers }
  else if event == "SIGNED_OUT" then
    { c with fibers := Fiber.authOutBody :: c.fibers }
  else c

/-- The `beforeunload` listener (lines 567-573): starts
`cleanupSubscriptions()` without awaiting it and synchronously clears
the keepalive interval.  The pending backoff timers are untouched:
their `setTimeout` handles were never stored. -/
def onBeforeUnload (c : Config) : Config :=
  { c with keepAliveOn := false,
           fibers := Fiber.unloadCleanup :: c.fibers }

/-- Completion of a suspended handler body, when the event loop resumes
it: the awaited cleanup finishes (`channelRefs = []`) and the rest of
the body runs to the end. -/
def runFiber (f : Fiber) (c : Config) : Config :=
  match f with
  | Fiber.reconBody =>
    { subscribeToChannels { c with channelRefs := [] } with
      isReconnecting := false }
  | Fiber.visBody =>
    { subscribeToChannels { c with channelRefs := [] } with
      isReconnecting := false }
  | Fiber.onlineBody => subscribeToChannels { c with channelRefs := [] }
  | Fiber.authInBody => subscribeToChannels { c with channelRefs := [] }
  | Fiber.authOutBody => { c with channelRefs := [], keepAliveOn := false }
  | Fiber.unloadCleanup => { c with channelRefs := [] }

/-- `initRealtimeManager` (lines 514-576): a second call returns after
the log; the first call sets `isInitialized`, opens the four channels,
starts the keepalive interval, and registers the
visibility/online/offline/auth/beforeunload listeners (event delivery
in `step` is gated on `isInitialized`). -/
def initRealtimeManager (c : Config) : Config :=
  if c.isInitialized then c
  else
    { subscribeToChannels { c with isInitialized := true } with
      keepAliveOn := true }

/-- Select the `i`-th suspended fiber, returning it and the remaining
list. -/
def pick : List Fiber → Nat → Option (Fiber × List Fiber)
  | [], _ => none
  | f :: rest, 0 => some (f, rest)
  | f :: rest, Nat.succ n =>
    match pick rest n with
    | none => none
    | some p => some (p.1, f :: p.2)

/-- One schedulable event-loop occurrence. -/
inductive Action
  /-- a call to `initRealtimeManager()` -/
  | init
  /-- a channel status callback fires with status string `s` -/
  | status (s : String)
  /-- the keepalive interval ticks and the probe completes with `o` -/
  | keepalive (o : ProbeOutcome)
  /-- one armed backoff `setTimeout` fires (lines 399-425, the guard
  check at the top of the callback is part of this step) -/
  | fireTimer
  /-- a `visibilitychange` event with `document.hidden = hidden` at
  time `now` -/
  | visibility (hidden : Bool) (now : Nat)
  /-- a network `online` event -/
  | online
  /-- a network `offline` event (log only, line 542) -/
  | offline
  /-- an auth state change with event string `e` -/
  | auth (e : String)
  /-- a `beforeunload` event -/
  | unload
  /-- the event loop resumes the `i`-th suspended fiber -/
  | resume (i : Nat)
deriving DecidableEq

/-- Small-step transition: `none` when the occurrence is impossible in
`c` (no listener registered yet, no timer pending, no such fiber,
keepalive interval cleared). -/
def step (c : Config) : Action → Option Config
  | Action.init => some (initRealtimeManager c)
  | Action.status s =>
    if c.isInitialized then some (handleSubscriptionStatus s c) else none
  | Action.keepalive o =>
    if c.isInitialized && c.keepAliveOn then some (keepaliveTick o c)
    else none
  | Action.fireTimer =>
    if c.pendingTimers = 0 then none
    else
      let c1 := { c with pendingTimers := c.pendingTimers - 1 }
      if c.isReconnecting then some c1
      else some { c1 with isReconnecting := true,
                          fibers := Fiber.reconBody :: c1.fibers }
  | Action.visibility hidden now =>
    if c.isInitialized then some (handleVisibilityChange hidden now c)
    else none
  | Action.online =>
    if c.isInitialized then
      some { c with fibers := Fiber.onlineBody :: c.fibers }
    else none
  | Action.offline => if c.isInitialized then some c else none
  | Action.auth e =>
    if c.isInitialized then some (onAuthStateChange e c) else none
  | Action.unload =>
    if c.isInitialized then some (onBeforeUnload c) else none
  | Action.resume i =>
    match pick c.fibers i with
    | none => none
    | some (f, rest) => some (runFiber f { c with fibers := rest })

/-- Run a list of event-loop occurrences in order. -/
def run (c : Config) : List Action → Option Config
  | [] => some c
  | a :: rest =>
    match step c a with
    | none => none
    | some c2 => run c2 rest

/-- Fibers that hold the `isReconnecting` guard while suspended. -/
def guardedFiber : Fiber → Bool
  | Fiber.reconBody => true
  | Fiber.visBody => true
  | _ => false

/-- Fibers that are inside a teardown/reopen (reconnect) cycle. -/
def cycleFiber : Fiber → Bool
  | Fiber.reconBody => true
  | Fiber.visBody => true
  | Fiber.onlineBody => true
  | Fiber.authInBody => true
  | _ => false

/-- Number of suspended guard-holding cycles. -/
def guardedCount (fs : List Fiber) : Nat := (fs.filter guardedFiber).length

/-- Number of suspended teardown/reopen cycles. -/
def cycleCount (fs : List Fiber) : Nat := (fs.filter cycleFiber).length

/-- Actions that the spec treats as external reset events: a
`SUBSCRIBED` status callback or a visibility-foreground event. -/
def isResetAction : Action → Bool
  | Action.status s => s == "SUBSCRIBED"
  | Action.visibility hidden _ => !hidden
  | _ => false

/-- Invariant: the suspended guard-holding fibers are in bijection with
the `isReconnecting` flag. -/
def GuardInv (c : Config) : Prop :=
  guardedCount c.fibers = if c.isReconnecting then 1 else 0

/-- The state right after the first `initRealtimeManager()` call. -/
def cInit : Config := initRealtimeManager initialConfig

/-- A reachable state with a guarded reconnect cycle in flight: after
initialization, one `CHANNEL_ERROR` status and the firing of the armed
backoff timer. -/
def cGuard : Config :=
  { reconnectAttempts := 1, channelRefs := [0, 1, 2, 3], nextChannel := 4,
    keepAliveOn := true, isInitialized := true, isReconnecting := true,
    lastVisibilityChange := 0, pendingTimers := 0,
    fibers := [Fiber.reconBody] }

/-- Initialization followed by ten consecutive `CHANNEL_ERROR`
statuses. -/
def satTrace : List Action :=
  Action.init ::
    List.replicate MAX_RECONNECT_ATTEMPTS (Action.status "CHANNEL_ERROR")

/-- The state reached by `satTrace`: the failure counter is saturated
at the maximum. -/
def cSat : Config :=
  { reconnectAttempts := 10, channelRefs := [0, 1, 2, 3], nextChannel := 4,
    keepAliveOn := true, isInitialized := true, isReconnecting := false,
    lastVisibilityChange := 0, pendingTimers := 10, fibers := [] }

/-- A window listener table with one listener (callback id 3) on the
leads change event. -/
def wExample : WindowState := ⟨[("supabase:leads:change", 3)]⟩

@[simp] theorem guardedFiber_reconBody : guardedFiber Fiber.reconBody = true := rfl

@[simp] theorem guardedFiber_visBody : guardedFiber Fiber.visBody = true := rfl

@[simp] theorem guardedFiber_onlineBody : guardedFiber Fiber.onlineBody = false := rfl

@[simp] theorem guardedFiber_authInBody : guardedFiber Fiber.authInBody = false := rfl

@[simp] theorem guardedFiber_authOutBody : guardedFiber Fiber.authOutBody = false := rfl

@[simp] theorem guardedFiber_unloadCleanup : guardedFiber Fiber.unloadCleanup = false := rfl

theorem guardedCount_cons (f : Fiber) (fs : List Fiber) :
    guardedCount (f :: fs) =
      guardedCount fs + (if guardedFiber f then 1 else 0) := by
  by_cases h : guardedFiber f <;> simp [guardedCount, List.filter_cons, h]

theorem pick_filter_length (p : Fiber → Bool) :
    ∀ (fs : List Fiber) (i : Nat) (f : Fiber) (rest : List Fiber),
      pick fs i = some (f, rest) →
      (fs.filter p).length =
        (rest.filter p).length + (if p f then 1 else 0) := by
  intro fs
  induction fs with
  | nil => intro i f rest h; simp [pick] at h
  | cons g gs ih =>
    intro i f rest h
    cases i with
    | zero =>
      simp [pick] at h
      obtain ⟨rfl, rfl⟩ := h
      by_cases hp : p g <;> simp [List.filter_cons, hp]
    | succ n =>
      simp only [pick] at h
      cases hp : pick gs n with
      | none => rw [hp] at h; simp at h
      | some q =>
        rw [hp] at h
        simp at h
        obtain ⟨rfl, rfl⟩ := h
        have hrec := ih n q.1 q.2 (by rw [hp])
        by_cases hg : p g <;> by_cases hq : p q.1 <;>
          simp [List.filter_cons, hg, hq] at hrec ⊢ <;> omega

theorem guardInv_step {c c' : Config} {a : Action} (hInv : GuardInv c)
    (h : step c a = some c') : GuardInv c' := by
  unfold GuardInv at hInv ⊢
  cases a with
  | init =>
    simp [step] at h
    subst h
    unfold initRealtimeManager subscribeToChannels
    split_ifs <;> simp_all
  | status s =>
    simp [step] at h
    obtain ⟨-, rfl⟩ := h
    unfold handleSubscriptionStatus scheduleReconnect
    split_ifs <;> simp_all
  | keepalive o =>
    simp [step] at h
    obtain ⟨-, rfl⟩ := h
    cases o <;> unfold keepaliveTick scheduleReconnect <;>
      split_ifs <;> simp_all
  | fireTimer =>
    simp only [step] at h
    by_cases h0 : c.pendingTimers = 0
    · simp [h0] at h
    · by_cases hr : c.isReconnecting
      · simp [h0, hr] at h
        subst h
        simpa [hr] using hInv
      · simp [h0, hr] at h
        subst h
        simp [hr, guardedCount, guardedCount_cons, guardedFiber,
          List.filter_cons] at hInv ⊢
        exact hInv
  | visibility hidden now =>
    simp [step] at h
    obtain ⟨-, rfl⟩ := h
    unfold handleVisibilityChange
    by_cases h1 : now - c.lastVisibilityChange < VISIBILITY_DEBOUNCE
    · simpa [h1] using hInv
    · cases hidden with
      | true => simpa [h1] using hInv
      | false =>
        by_cases h2 : c.isReconnecting
        · simpa [h1, h2] using hInv
        · simp [h1, h2, guardedCount, guardedCount_cons, guardedFiber,
            List.filter_cons] at hInv ⊢
          exact hInv
  | online =>
    simp [step] at h
    obtain ⟨-, rfl⟩ := h
    simp_all [guardedCount, List.filter_cons, guardedFiber]
  | offline =>
    simp [step] at h
    obtain ⟨-, rfl⟩ := h
    exact hInv
  | auth e =>
    simp [step] at h
    obtain ⟨-, rfl⟩ := h
    unfold onAuthStateChange
    split_ifs <;> simp_all [guardedCount, List.filter_cons, guardedFiber]
  | unload =>
    simp [step] at h
    obtain ⟨-, rfl⟩ := h
    simp_all [onBeforeUnload, guardedCount, List.filter_cons, guardedFiber]
  | resume i =>
    simp only [step] at h
    cases hp : pick c.fibers i with
    | none => rw [hp] at h; simp at h
    | some q =>
      rw [hp] at h
      simp at h
      subst h
      have hcount := pick_filter_length guardedFiber c.fibers i q.1 q.2 hp
      unfold guardedCount at hInv ⊢
      cases hf : q.1 with
      | reconBody =>
        rw [hf] at hcount
        simp at hcount
        show (List.filter guardedFiber q.2).length =
          if false = true then 1 else 0
        rw [if_neg (by decide)]
        split_ifs at hInv <;> omega
      | visBody =>
        rw [hf] at hcount
        simp at hcount
        show (List.filter guardedFiber q.2).length =
          if false = true then 1 else 0
        rw [if_neg (by decide)]
        split_ifs at hInv <;> omega
      | onlineBody =>
        rw [hf] at hcount
        simp at hcount
        show (List.filter guardedFiber q.2).length =
          if c.isReconnecting = true then 1 else 0
        split_ifs at hInv ⊢ <;> omega
      | authInBody =>
        rw [hf] at hcount
        simp at hcount
        show (List.filter guardedFiber q.2).length =
          if c.isReconnecting = true then 1 else 0
        split_ifs at hInv ⊢ <;> omega
      | authOutBody =>
        rw [hf] at hcount
        simp at hcount
        show (List.filter guardedFiber q.2).length =
          if c.isReconnecting = true then 1 else 0
        split_ifs at hInv ⊢ <;> omega
      | unloadCleanup =>
        rw [hf] at hcount
        simp at hcount
        show (List.filter guardedFiber q.2).length =
          if c.isReconnecting = true then 1 else 0
        split_ifs at hInv ⊢ <;> omega

theorem guardInv_run :
    ∀ (acts : List Action) (c c' : Config), GuardInv c →
      run c acts = some c' → GuardInv c' := by
  intro acts
  induction acts with
  | nil => intro c c' hInv h; simp [run] at h; subst h; exact hInv
  | cons a rest ih =>
    intro c c' hInv h
    simp only [run] at h
    cases hs : step c a with
    | none => rw [hs] at h; simp at h
    | some c2 =>
      rw [hs] at h
      exact ih c2 c' (guardInv_step hInv hs) h

theorem scheduleReconnect_attempts_le {c : Config}
    (h : c.reconnectAttempts ≤ MAX_RECONNECT_ATTEMPTS) :
    (scheduleReconnect c).reconnectAttempts ≤ MAX_RECONNECT_ATTEMPTS := by
  unfold scheduleReconnect
  split_ifs <;> simp_all <;> omega

theorem scheduleReconnect_saturated {c : Config}
    (h : c.reconnectAttempts = MAX_RECONNECT_ATTEMPTS) :
    scheduleReconnect c = c := by
  unfold scheduleReconnect
  split_ifs with h1 h2
  · rfl
  · rfl
  · omega

theorem attempts_le_step {c c' : Config} {a : Action}
    (hle : c.reconnectAttempts ≤ MAX_RECONNECT_ATTEMPTS)
    (h : step c a = some c') :
    c'.reconnectAttempts ≤ MAX_RECONNECT_ATTEMPTS := by
  cases a with
  | init =>
    simp [step] at h
    subst h
    unfold initRealtimeManager subscribeToChannels
    split_ifs <;> simp_all
  | status s =>
    simp [step] at h
    obtain ⟨-, rfl⟩ := h
    unfold handleSubscriptionStatus
    split_ifs with h1 h2
    · simpa using Nat.zero_le _
    · exact scheduleReconnect_attempts_le hle
    · exact hle
  | keepalive o =>
    simp [step] at h
    obtain ⟨-, rfl⟩ := h
    cases o with
    | ok => exact hle
    | errResult => exact scheduleReconnect_attempts_le hle
    | thrown => exact hle
  | fireTimer =>
    simp only [step] at h
    by_cases h0 : c.pendingTimers = 0
    · simp [h0] at h
    · by_cases hr : c.isReconnecting <;> simp [h0, hr] at h <;> subst h <;>
        exact hle
  | visibility hidden now =>
    simp [step] at h
    obtain ⟨-, rfl⟩ := h
    unfold handleVisibilityChange
    by_cases h1 : now - c.lastVisibilityChange < VISIBILITY_DEBOUNCE
    · simpa [h1] using hle
    · cases hidden with
      | true => simpa [h1] using hle
      | false =>
        by_cases h2 : c.isReconnecting <;> simp [h1, h2, hle]
  | online =>
    simp [step] at h
    obtain ⟨-, rfl⟩ := h
    exact hle
  | offline =>
    simp [step] at h
    obtain ⟨-, rfl⟩ := h
    exact hle
  | auth e =>
    simp [step] at h
    obtain ⟨-, rfl⟩ := h
    unfold onAuthStateChange
    split_ifs <;> simp_all
  | unload =>
    simp [step] at h
    obtain ⟨-, rfl⟩ := h
    simp_all [onBeforeUnload]
  | resume i =>
    simp only [step] at h
    cases hp : pick c.fibers i with
    | none => rw [hp] at h; simp at h
    | some q =>
      rw [hp] at h
      simp at h
      subst h
      cases q.1 <;> simp_all [runFiber, subscribeToChannels]

theorem attempts_le_run :
    ∀ (acts : List Action) (c c' : Config),
      c.reconnectAttempts ≤ MAX_RECONNECT_ATTEMPTS →
      run c acts = some c' →
      c'.reconnectAttempts ≤ MAX_RECONNECT_ATTEMPTS := by
  intro acts
  induction acts with
  | nil => intro c c' hle h; simp [run] at h; subst h; exact hle
  | cons a rest ih =>
    intro c c' hle h
    simp only [run] at h
    cases hs : step c a with
    | none => rw [hs] at h; simp at h
    | some c2 =>
      rw [hs] at h
      exact ih c2 c' (attempts_le_step hle hs) h

theorem saturated_step {c c' : Config} {a : Action}
    (hsat : c.reconnectAttempts = MAX_RECONNECT_ATTEMPTS)
    (hnr : isResetAction a = false)
    (h : step c a = some c') :
    c'.reconnectAttempts = MAX_RECONNECT_ATTEMPTS ∧
    c'.pendingTimers ≤ c.pendingTimers := by
  cases a with
  | init =>
    simp [step] at h
    subst h
    unfold initRealtimeManager subscribeToChannels
    split_ifs <;> simp_all
  | status s =>
    simp [step] at h
    obtain ⟨-, rfl⟩ := h
    simp [isResetAction] at hnr
    unfold handleSubscriptionStatus
    rw [scheduleReconnect_saturated hsat]
    have hb : (s == "SUBSCRIBED") = false := by simp [hnr]
    simp [hb, hsat]
  | keepalive o =>
    simp [step] at h
    obtain ⟨-, rfl⟩ := h
    cases o <;> simp [keepaliveTick, scheduleReconnect_saturated hsat, hsat]
  | fireTimer =>
    simp only [step] at h
    by_cases h0 : c.pendingTimers = 0
    · simp [h0] at h
    · by_cases hr : c.isReconnecting <;> simp [h0, hr] at h <;> subst h <;>
        exact ⟨hsat, by simp⟩
  | visibility hidden now =>
    simp [isResetAction] at hnr
    subst hnr
    simp [step] at h
    obtain ⟨-, rfl⟩ := h
    unfold handleVisibilityChange
    by_cases h1 : now - c.lastVisibilityChange < VISIBILITY_DEBOUNCE <;>
      simp [h1, hsat]
  | online =>
    simp [step] at h
    obtain ⟨-, rfl⟩ := h
    simp [hsat]
  | offline =>
    simp [step] at h
    obtain ⟨-, rfl⟩ := h
    simp [hsat]
  | auth e =>
    simp [step] at h
    obtain ⟨-, rfl⟩ := h
    unfold onAuthStateChange
    split_ifs <;> simp [hsat]
  | unload =>
    simp [step] at h
    obtain ⟨-, rfl⟩ := h
    simp [onBeforeUnload, hsat]
  | resume i =>
    simp only [step] at h
    cases hp : pick c.fibers i with
    | none => rw [hp] at h; simp at h
    | some q =>
      rw [hp] at h
      simp at h
      subst h
      cases q.1 <;> simp_all [runFiber, subscribeToChannels]

theorem saturated_run :
    ∀ (acts : List Action) (c c' : Config),
      c.reconnectAttempts = MAX_RECONNECT_ATTEMPTS →
      (∀ a ∈ acts, isResetAction a = false) →
      run c acts = some c' →
      c'.reconnectAttempts = MAX_RECONNECT_ATTEMPTS ∧
      c'.pendingTimers ≤ c.pendingTimers := by
  intro acts
  induction acts with
  | nil =>
    intro c c' hsat hnr h
    simp [run] at h
    subst h
    exact ⟨hsat, le_refl _⟩
  | cons a rest ih =>
    intro c c' hsat hnr h
    simp only [run] at h
    cases hs : step c a with
    | none => rw [hs] at h; simp at h
    | some c2 =>
      rw [hs] at h
      have h1 := saturated_step hsat (hnr a (by simp)) hs
      have h2 := ih c2 c' h1.1 (fun a ha => hnr a (by simp [ha])) h
      exact ⟨h2.1, le_trans h2.2 h1.2⟩

/-- C9: subscription cleanup is total and unconditional: for every
state of the handle list and every pattern of `removeChannel` failures,
`cleanupSubscriptions` never throws (each failing removal is swallowed
by its try/catch) and on completion the handle list is the empty
list. -/
theorem C9_cleanup_total (fail : Nat → Bool) (refs : List Nat) :
    cleanupSubscriptions fail refs = Except.ok [] := by
  unfold cleanupSubscriptions
  have h : cleanupLoop fail refs = Except.ok () := by
    induction refs with
    | nil => rfl
    | cons c rest ih =>
      unfold cleanupLoop removeChannel
      by_cases hf : fail c <;> simp [hf, ih]
  rw [h]
  rfl

/-- C10: the legacy `realtimeManager.subscribe(channelName, table,
callback)` never registers the given callback anywhere, returns an
unregister function that does nothing, and consequently a callback not
otherwise registered is never invoked by any dispatched change
event. -/
theorem C10_legacy_subscribe_inert (channelName table : String) (cb : Nat)
    (w : WindowState) (h : ∀ p ∈ w.listeners, p.2 ≠ cb) :
    (realtimeManager_subscribe channelName table cb w).1 = w ∧
    (∀ w2, (realtimeManager_subscribe channelName table cb w).2 w2 = w2) ∧
    (∀ ev, cb ∉ dispatchEvent
        (realtimeManager_subscribe channelName table cb w).1 ev) := by
  refine ⟨rfl, fun w2 => rfl, ?_⟩
  intro ev hmem
  unfold realtimeManager_subscribe dispatchEvent at hmem
  simp only [List.mem_map, List.mem_filter] at hmem
  obtain ⟨p, ⟨hp, -⟩, hcb⟩ := hmem
  exact h p hp hcb

/-- Witness for C10 at a concrete window state and callback. -/
theorem C10_witness :
    (realtimeManager_subscribe "leads-changes" "leads" 7 wExample).1 =
      wExample ∧
    7 ∉ dispatchEvent wExample "supabase:leads:change" := by
  have h := C10_legacy_subscribe_inert "leads-changes" "leads" 7 wExample
    (by decide)
  exact ⟨h.1, h.2.2 "supabase:leads:change"⟩

/-- C3 counterexample: at attempt k = 7 (which satisfies 1 ≤ k ≤ 10)
with jitter draw r = 0 (which satisfies 0 ≤ r < 1), the computed delay
is `min(1000 * 2^6, 60000) = 60000`, strictly below the claimed lower
bound `baseDelay * 2^(k-1) = 64000`. -/
theorem C3_counterexample :
    1 ≤ 7 ∧ 7 ≤ 10 ∧ (0:ℚ) ≤ 0 ∧ (0:ℚ) < 1 ∧
    ¬ BASE_DELAY * 2 ^ (7 - 1) ≤ getBackoffDelay (7 - 1) 0 := by
  refine ⟨by norm_num, by norm_num, le_refl 0, by norm_num, ?_⟩
  norm_num [getBackoffDelay, BASE_DELAY, MAX_DELAY]

/-- C3 (amended): for every attempt number k ≥ 1 and jitter draw
r ∈ [0,1), the delay computed before attempt k (when the counter stands
at k-1) satisfies `min(baseDelay*2^(k-1), maxDelay) ≤ delay ≤
min(baseDelay*2^(k-1), maxDelay) * 1.3`, hence `delay ≤ maxDelay *
1.3`. -/
theorem C3_backoff_bounds (k : Nat) (r : ℚ) (hk : 1 ≤ k)
    (hr0 : 0 ≤ r) (hr1 : r < 1) :
    min (BASE_DELAY * 2 ^ (k - 1)) MAX_DELAY ≤ getBackoffDelay (k - 1) r ∧
    getBackoffDelay (k - 1) r ≤
      min (BASE_DELAY * 2 ^ (k - 1)) MAX_DELAY * (13 / 10) ∧
    getBackoffDelay (k - 1) r ≤ MAX_DELAY * (13 / 10) := by
  have hd0 : (0:ℚ) ≤ min (BASE_DELAY * 2 ^ (k - 1)) MAX_DELAY := by
    apply le_min
    · unfold BASE_DELAY
      positivity
    · norm_num [MAX_DELAY]
  have hdM : min (BASE_DELAY * 2 ^ (k - 1)) MAX_DELAY ≤ MAX_DELAY :=
    min_le_right _ _
  unfold getBackoffDelay
  set d := min (BASE_DELAY * 2 ^ (k - 1)) MAX_DELAY with hd
  refine ⟨?_, ?_, ?_⟩
  · nlinarith [mul_nonneg (mul_nonneg hr0 (by norm_num : (0:ℚ) ≤ 3/10)) hd0]
  · nlinarith [mul_nonneg hd0 (sub_nonneg.2 hr1.le)]
  · have h2 : d + r * (3 / 10) * d ≤ d * (13 / 10) := by
      nlinarith [mul_nonneg hd0 (sub_nonneg.2 hr1.le)]
    have h3 : d * (13 / 10) ≤ MAX_DELAY * (13 / 10) := by
      nlinarith [hdM]
    exact le_trans h2 h3

/-- Witness for C3 (amended) at k = 1, r = 1/2. -/
theorem C3_witness :
    min (BASE_DELAY * 2 ^ (1 - 1)) MAX_DELAY ≤
      getBackoffDelay (1 - 1) (1 / 2) ∧
    getBackoffDelay (1 - 1) (1 / 2) ≤
      min (BASE_DELAY * 2 ^ (1 - 1)) MAX_DELAY * (13 / 10) ∧
    getBackoffDelay (1 - 1) (1 / 2) ≤ MAX_DELAY * (13 / 10) :=
  C3_backoff_bounds 1 (1 / 2) (by norm_num) (by norm_num) (by norm_num)

/-- C4 counterexample: after initialization, a keepalive probe that
throws leaves the state entirely unchanged — in particular no backoff
timer is armed — although a call to `scheduleReconnect` would have
changed the state.  The thrown exception is caught and only logged
(realtimeManager.ts lines 457-460), so it is NOT treated like an error
result. -/
theorem C4_counterexample :
    run initialConfig [Action.init, Action.keepalive ProbeOutcome.thrown] =
      some cInit ∧
    cInit.pendingTimers = 0 ∧
    scheduleReconnect cInit ≠ cInit := by decide

/-- C4 (amended): a keepalive probe resolving with an error result
calls `scheduleReconnect`, while a probe that throws is caught and only
logged (no reconnect is scheduled), as is a clean probe. -/
theorem C4_keepalive_dispatch (c : Config) (h1 : c.isInitialized = true)
    (h2 : c.keepAliveOn = true) :
    step c (Action.keepalive ProbeOutcome.errResult) =
      some (scheduleReconnect c) ∧
    step c (Action.keepalive ProbeOutcome.thrown) = some c ∧
    step c (Action.keepalive ProbeOutcome.ok) = some c := by
  simp [step, h1, h2, keepaliveTick]

/-- Witness for C4 (amended) at the initialized state. -/
theorem C4_witness :
    step cInit (Action.keepalive ProbeOutcome.errResult) =
      some (scheduleReconnect cInit) ∧
    step cInit (Action.keepalive ProbeOutcome.thrown) = some cInit := by
  have h := C4_keepalive_dispatch cInit (by decide) (by decide)
  exact ⟨h.1, h.2.1⟩

/-- C5 counterexample: after initialization, a `TIMED_OUT` status
callback leaves the state entirely unchanged — no backoff timer is
armed — although a call to `scheduleReconnect` would have changed the
state.  `handleSubscriptionStatus` only matches `CLOSED` and
`CHANNEL_ERROR` (realtimeManager.ts line 371); `TIMED_OUT` falls into
the log-only branch. -/
theorem C5_counterexample :
    run initialConfig [Action.init, Action.status "TIMED_OUT"] =
      some cInit ∧
    cInit.pendingTimers = 0 ∧
    scheduleReconnect cInit ≠ cInit := by decide

/-- C5 (amended): `SUBSCRIBED` resets the failure counter to zero,
`CLOSED` and `CHANNEL_ERROR` trigger `scheduleReconnect()`, and every
other status — including `TIMED_OUT` — triggers neither. -/
theorem C5_status_dispatch (c : Config) (s : String) :
    (s = "SUBSCRIBED" →
      handleSubscriptionStatus s c = { c with reconnectAttempts := 0 }) ∧
    ((s = "CLOSED" ∨ s = "CHANNEL_ERROR") →
      handleSubscriptionStatus s c = scheduleReconnect c) ∧
    (s ≠ "SUBSCRIBED" → s ≠ "CLOSED" → s ≠ "CHANNEL_ERROR" →
      handleSubscriptionStatus s c = c) := by
  refine ⟨?_, ?_, ?_⟩
  · rintro rfl
    simp [handleSubscriptionStatus]
  · rintro (rfl | rfl) <;> simp [handleSubscriptionStatus]
  · intro h1 h2 h3
    simp [handleSubscriptionStatus, h1, h2, h3]

/-- Witness for C5 (amended) at the initialized state with concrete
status strings, `TIMED_OUT` included. -/
theorem C5_witness :
    handleSubscriptionStatus "SUBSCRIBED" cInit =
      { cInit with reconnectAttempts := 0 } ∧
    handleSubscriptionStatus "CLOSED" cInit = scheduleReconnect cInit ∧
    handleSubscriptionStatus "TIMED_OUT" cInit = cInit := by
  refine ⟨(C5_status_dispatch cInit "SUBSCRIBED").1 rfl,
          (C5_status_dispatch cInit "CLOSED").2.1 (Or.inl rfl),
          (C5_status_dispatch cInit "TIMED_OUT").2.2 (by decide) (by decide)
            (by decide)⟩

/-- C6: visibility changes are debounced with a 1-second window.  A
genuine foreground transition (not debounced, no reconnect in flight)
resets the failure counter to zero, takes the guard, and starts the
immediate teardown/reopen body — whose completion recreates the four
subscriptions; a second foreground event less than 1 second later is
ignored, so the two events produce only one resubscribe cycle; and a
transition to hidden changes no subscription and starts no cycle. -/
theorem C6_visibility_debounce (c : Config) (t1 : Nat)
    (hg : c.isReconnecting = false)
    (hd : c.lastVisibilityChange + VISIBILITY_DEBOUNCE ≤ t1) :
    (handleVisibilityChange false t1 c).reconnectAttempts = 0 ∧
    (handleVisibilityChange false t1 c).isReconnecting = true ∧
    (handleVisibilityChange false t1 c).fibers = Fiber.visBody :: c.fibers ∧
    (∀ t2, t2 - t1 < VISIBILITY_DEBOUNCE →
      handleVisibilityChange false t2 (handleVisibilityChange false t1 c) =
        handleVisibilityChange false t1 c) ∧
    (runFiber Fiber.visBody
      (handleVisibilityChange false t1 c)).channelRefs.length = 4 ∧
    (runFiber Fiber.visBody
      (handleVisibilityChange false t1 c)).isReconnecting = false ∧
    (∀ t, (handleVisibilityChange true t c).channelRefs = c.channelRefs ∧
          (handleVisibilityChange true t c).fibers = c.fibers) := by
  have hnd : ¬ (t1 - c.lastVisibilityChange < VISIBILITY_DEBOUNCE) := by
    unfold VISIBILITY_DEBOUNCE at *
    omega
  refine ⟨?_, ?_, ?_, ?_, ?_, ?_, ?_⟩
  · simp [handleVisibilityChange, hnd, hg]
  · simp [handleVisibilityChange, hnd, hg]
  · simp [handleVisibilityChange, hnd, hg]
  · intro t2 ht2
    simp [handleVisibilityChange, hnd, hg, ht2]
  · simp [handleVisibilityChange, hnd, hg, runFiber, subscribeToChannels]
  · simp [handleVisibilityChange, hnd, hg, runFiber, subscribeToChannels]
  · intro t
    unfold handleVisibilityChange
    by_cases ht : t - c.lastVisibilityChange < VISIBILITY_DEBOUNCE <;>
      simp [ht]

/-- Witness for C6 at the initialized state: a genuine foreground at
t = 5000 starts one cycle and a second foreground at t = 5500 is
ignored. -/
theorem C6_witness :
    (handleVisibilityChange false 5000 cInit).reconnectAttempts = 0 ∧
    (handleVisibilityChange false 5000 cInit).fibers =
      Fiber.visBody :: cInit.fibers ∧
    handleVisibilityChange false 5500
        (handleVisibilityChange false 5000 cInit) =
      handleVisibilityChange false 5000 cInit ∧
    (handleVisibilityChange true 9000 cInit).channelRefs =
      cInit.channelRefs := by
  have h := C6_visibility_debounce cInit 5000 (by decide) (by decide)
  exact ⟨h.1, h.2.2.1, h.2.2.2.1 5500 (by decide), (h.2.2.2.2.2.2 9000).1⟩

/-- C7 counterexample: a concrete interleaving in which a backoff timer
armed before the unload teardown still fires after the teardown
completed, and resubscribes all four channels: `initRealtimeManager`,
one `CHANNEL_ERROR` (arms the timer), `beforeunload` (clears only the
keepalive interval — the timer handle was discarded at
realtimeManager.ts line 399), completion of the unload cleanup (handle
list empty), then the timer fires and its body reopens the channels.
The final state holds four live channel handles after teardown. -/
theorem C7_counterexample :
    run initialConfig
      [Action.init, Action.status "CHANNEL_ERROR", Action.unload,
       Action.resume 0, Action.fireTimer, Action.resume 0] =
    some { reconnectAttempts := 1, channelRefs := [4, 5, 6, 7],
           nextChannel := 8, keepAliveOn := false, isInitialized := true,
           isReconnecting := false, lastVisibilityChange := 0,
           pendingTimers := 0, fibers := [] } ∧
    [4, 5, 6, 7] ≠ ([] : List Nat) := by decide

/-- C7 (amended): the unload teardown clears the keepalive interval (no
keepalive tick can fire afterwards), starts the channel cleanup, never
throws, and is callable again after it ran; but it does not cancel any
pending backoff timer — the pending-timer count is unchanged — because
the `setTimeout` handle is discarded when the timer is armed; there is
no visibility-debounce timer at all (the debounce is a timestamp
comparison). -/
theorem C7_unload_teardown (c : Config) (h : c.isInitialized = true) :
    step c Action.unload = some (onBeforeUnload c) ∧
    (onBeforeUnload c).keepAliveOn = false ∧
    (∀ o, step (onBeforeUnload c) (Action.keepalive o) = none) ∧
    step (onBeforeUnload c) Action.unload =
      some (onBeforeUnload (onBeforeUnload c)) ∧
    (onBeforeUnload c).fibers = Fiber.unloadCleanup :: c.fibers ∧
    (onBeforeUnload c).pendingTimers = c.pendingTimers := by
  refine ⟨by simp [step, h], rfl, ?_, by simp [step, onBeforeUnload, h],
          rfl, rfl⟩
  intro o
  simp [step, onBeforeUnload]

/-- Witness for C7 (amended) at the initialized state. -/
theorem C7_witness :
    step cInit Action.unload = some (onBeforeUnload cInit) ∧
    (onBeforeUnload cInit).keepAliveOn = false ∧
    step (onBeforeUnload cInit) (Action.keepalive ProbeOutcome.ok) =
      none ∧
    (onBeforeUnload cInit).pendingTimers = cInit.pendingTimers := by
  have h := C7_unload_teardown cInit (by decide)
  exact ⟨h.1, h.2.1, h.2.2.1 ProbeOutcome.ok, h.2.2.2.2.2⟩

/-- C8: `initRealtimeManager` is idempotent.  The first call creates
the four subscriptions, starts the keepalive, and registers the
listeners (visibility, online, auth, unload events become deliverable);
every subsequent call returns the state unchanged — performing none of
these actions — and cannot throw; before the first call none of the
listeners is registered. -/
theorem C8_init_idempotent (c : Config) (h : c.isInitialized = true) :
    initRealtimeManager c = c ∧
    step c Action.init = some c ∧
    cInit.channelRefs.length = 4 ∧
    cInit.keepAliveOn = true ∧
    cInit.isInitialized = true ∧
    (∀ hidden t, step cInit (Action.visibility hidden t) ≠ none) ∧
    step cInit Action.online ≠ none ∧
    step cInit (Action.auth "SIGNED_IN") ≠ none ∧
    step cInit Action.unload ≠ none ∧
    step initialConfig (Action.visibility false 0) = none ∧
    step initialConfig Action.online = none ∧
    step initialConfig (Action.auth "SIGNED_IN") = none ∧
    step initialConfig Action.unload = none := by
  refine ⟨by simp [initRealtimeManager, h], by simp [step, initRealtimeManager, h],
          by decide, by decide, by decide, ?_, by decide, by decide,
          by decide, by decide, by decide, by decide, by decide⟩
  intro hidden t
  simp [step, cInit, initRealtimeManager, initialConfig, subscribeToChannels]

/-- Witness for C8 at the initialized state. -/
theorem C8_witness :
    initRealtimeManager cInit = cInit ∧
    step cInit Action.init = some cInit ∧
    cInit.channelRefs.length = 4 := by
  have h := C8_init_idempotent cInit (by decide)
  exact ⟨h.1, h.2.1, h.2.2.1⟩

/-- C1 counterexample: a concrete interleaving with two overlapping
teardown/reopen sequences.  After initialization a network `online`
event starts its (unguarded) teardown/reopen body; while that body is
suspended, a `CHANNEL_ERROR` arms a backoff timer — not dropped,
because the `online` handler never set `isReconnecting` — and the timer
fires, passing its guard check and starting a second teardown/reopen.
The reached state holds two suspended cycle fibers at once. -/
theorem C1_counterexample :
    run initialConfig
      [Action.init, Action.online, Action.status "CHANNEL_ERROR",
       Action.fireTimer] =
    some { reconnectAttempts := 1, channelRefs := [0, 1, 2, 3],
           nextChannel := 4, keepAliveOn := true, isInitialized := true,
           isReconnecting := true, lastVisibilityChange := 0,
           pendingTimers := 0,
           fibers := [Fiber.reconBody, Fiber.onlineBody] } ∧
    cycleCount [Fiber.reconBody, Fiber.onlineBody] = 2 := by decide

/-- C1 (amended): the in-flight guard serializes only the guarded
reconnect cycles — backoff-timer reconnects and visibility-foreground
resubscribes.  In every reachable state at most one guarded cycle is in
flight, and while one is (`isReconnecting` set) a `scheduleReconnect`
request is dropped without arming a timer, a visibility-foreground
event starts no new cycle, and a firing backoff timer returns at its
guard check.  Network-online and auth-change resubscribe cycles bypass
the guard and may overlap an in-flight cycle. -/
theorem C1_reconnect_guard (acts : List Action) (c : Config)
    (h : run initialConfig acts = some c) :
    guardedCount c.fibers ≤ 1 ∧
    (c.isReconnecting = true →
      scheduleReconnect c = c ∧
      (∀ t, (handleVisibilityChange false t c).fibers = c.fibers) ∧
      (c.pendingTimers ≠ 0 →
        step c Action.fireTimer =
          some { c with pendingTimers := c.pendingTimers - 1 })) := by
  have hInv : GuardInv c :=
    guardInv_run acts initialConfig c
      (by unfold GuardInv initialConfig guardedCount; simp) h
  constructor
  · unfold GuardInv at hInv
    split_ifs at hInv <;> omega
  · intro hr
    refine ⟨by simp [scheduleReconnect, hr], ?_, ?_⟩
    · intro t
      unfold handleVisibilityChange
      by_cases ht : t - c.lastVisibilityChange < VISIBILITY_DEBOUNCE <;>
        simp [ht, hr]
    · intro hp
      simp [step, hp, hr]

/-- Witness for C1 (amended) at a reachable state with a guarded cycle
in flight. -/
theorem C1_witness :
    guardedCount cGuard.fibers ≤ 1 ∧
    scheduleReconnect cGuard = cGuard ∧
    (handleVisibilityChange false 2000 cGuard).fibers = cGuard.fibers := by
  have h := C1_reconnect_guard
    [Action.init, Action.status "CHANNEL_ERROR", Action.fireTimer] cGuard
    (by decide)
  exact ⟨h.1, (h.2 rfl).1, (h.2 rfl).2.1 2000⟩

/-- C2: along every event trace from module load, the
consecutive-failure counter never exceeds `MAX_RECONNECT_ATTEMPTS`
(10); once it stands at 10, `scheduleReconnect` is a no-op, and along
any further trace containing no external reset event (no `SUBSCRIBED`
status and no visibility-foreground event) the counter stays at 10 and
the number of armed backoff timers never grows — no error or keepalive
fault schedules a further automatic reconnect. -/
theorem C2_attempt_cap (acts : List Action) (c : Config)
    (h : run initialConfig acts = some c) :
    c.reconnectAttempts ≤ MAX_RECONNECT_ATTEMPTS ∧
    (c.reconnectAttempts = MAX_RECONNECT_ATTEMPTS →
      scheduleReconnect c = c ∧
      ∀ acts2 c2, run c acts2 = some c2 →
        (∀ a ∈ acts2, isResetAction a = false) →
        c2.reconnectAttempts = MAX_RECONNECT_ATTEMPTS ∧
        c2.pendingTimers ≤ c.pendingTimers) := by
  refine ⟨attempts_le_run acts initialConfig c (by decide) h, ?_⟩
  intro hsat
  refine ⟨scheduleReconnect_saturated hsat, ?_⟩
  intro acts2 c2 h2 hnr
  exact saturated_run acts2 c c2 hsat hnr h2

/-- Witness for C2 at the saturated state reached by ten consecutive
channel errors; a further channel error and a failing keepalive probe
leave the saturated state unchanged. -/
theorem C2_witness :
    cSat.reconnectAttempts ≤ MAX_RECONNECT_ATTEMPTS ∧
    scheduleReconnect cSat = cSat ∧
    cSat.reconnectAttempts = MAX_RECONNECT_ATTEMPTS ∧
    cSat.pendingTimers ≤ cSat.pendingTimers := by
  have h := C2_attempt_cap satTrace cSat (by decide)
  have h2 := h.2 (by decide)
  have h3 := h2.2
    [Action.status "CHANNEL_ERROR", Action.keepalive ProbeOutcome.errResult]
    cSat (by decide) (by decide)
  exact ⟨h.1, h2.1, h3.1, h3.2⟩

end RealtimeManager
